import Mathlib

/-
Shallow embedding of the containerized-data-importer streaming-import
utilities (pkg/controller/util.go together with the importer package
helpers exercised by its tests), with theorems checking the documented
behavior: chain construction and round-trip reading, teardown of the
reader chain, endpoint scheme selection, the copy and conversion paths,
and the controller-side PVC helpers.

Bytes are modelled as natural numbers, byte streams as lists, Go maps as
association lists, the Kubernetes API as explicit response functions, and
Go pointers (where aliasing matters) as indices into an explicit store.
-/

/-! ## Resource Closer (closeReaders, DataStream.Close) -/

/-- One link of the decode chain, as in the importer test file: the
reader struct pairs a stage tag (rdrType) with a closable handle. The
handle is modelled by the outcome its Close call will produce; none
means the close succeeds. -/
structure Rdr where
  rdrType : Nat
  closeErr : Option String
  deriving DecidableEq

/-- Modelled from the spec: closeReaders, the Resource Closer. It is not
in src (only Test_closeReaders is); per the spec it closes every link in
construction order, continues past individual close errors, and returns
the first non-nil close error. The first component records, in order,
the stage tags of the links that were closed. -/
def closeReaders : List Rdr → List Nat × Option String
  | [] => ([], none)
  | r :: rs =>
    let rest := closeReaders rs
    (r.rdrType :: rest.1,
      match r.closeErr with
      | some e => some e
      | none => rest.2)

/-- Spec wording: the list of links in construction order. -/
def closedOrder (rs : List Rdr) : List Nat := rs.map Rdr.rdrType

/-- Spec wording: the first non-nil close error over the chain. -/
def firstCloseErr (rs : List Rdr) : Option String :=
  (rs.filterMap Rdr.closeErr).head?

/-- C3: for every chain of readers, closeReaders closes every link in
construction order, continuing past individual close errors, and
returns the first non-nil close error; it returns nil when every close
succeeds. -/
theorem closeReaders_spec (rs : List Rdr) :
    (closeReaders rs).1 = closedOrder rs ∧
    (closeReaders rs).2 = firstCloseErr rs ∧
    ((∀ r ∈ rs, r.closeErr = none) → (closeReaders rs).2 = none) := by
  induction rs with
  | nil => simp [closeReaders, closedOrder, firstCloseErr]
  | cons r rs ih =>
    obtain ⟨ih1, ih2, _⟩ := ih
    refine ⟨?_, ?_, ?_⟩
    · simp [closeReaders, closedOrder] at ih1 ⊢
      exact ih1
    · cases hr : r.closeErr with
      | some e => simp [closeReaders, firstCloseErr, hr, List.filterMap_cons]
      | none => simp [closeReaders, firstCloseErr, hr, List.filterMap_cons, ih2]
    · intro h
      have hr : r.closeErr = none := h r (by simp)
      have hrest : (closeReaders rs).2 = none := by
        rw [ih2]
        have : ∀ x ∈ rs, x.closeErr = none := fun x hx => h x (by simp [hx])
        simp [firstCloseErr, List.head?_eq_none_iff, List.filterMap_eq_nil_iff]
        intro x hx
        simp [this x hx]
      simp [closeReaders, hr, hrest]

/-- C3 witness: the concrete two-link chain from Test_closeReaders
(stage tags 4 and 7, both closes succeeding). -/
theorem closeReaders_spec_witness :
    (closeReaders [⟨4, none⟩, ⟨7, none⟩]).1 = closedOrder [⟨4, none⟩, ⟨7, none⟩] ∧
    (closeReaders [⟨4, none⟩, ⟨7, none⟩]).2 = none :=
  ⟨(closeReaders_spec [⟨4, none⟩, ⟨7, none⟩]).1,
   (closeReaders_spec [⟨4, none⟩, ⟨7, none⟩]).2.2 (by decide)⟩

/-- Modelled from the spec: the DataStream as owner of the reader chain.
Close drains the chain through closeReaders and empties the list, so an
already-closed stream holds no readers. -/
structure DataStreamHandle where
  readers : List Rdr
  deriving DecidableEq

/-- Modelled from the spec: DataStream.Close (not in src; only
Test_dataStream_Close is). It closes all readers and clears the chain. -/
def dsClose (ds : DataStreamHandle) : DataStreamHandle × Option String :=
  (⟨[]⟩, (closeReaders ds.readers).2)

/-- C4: invoking Close a second time on an already-closed DataStream is
a no-op: it returns no error and leaves the torn-down state unchanged. -/
theorem dsClose_idempotent (ds : DataStreamHandle) :
    (dsClose (dsClose ds).1).2 = none ∧ (dsClose (dsClose ds).1).1 = (dsClose ds).1 :=
  ⟨rfl, rfl⟩

/-! ## Endpoint Resolver (scheme selection) -/

/-- Leading characters of an endpoint string up to the first colon. -/
def takeScheme : List Char → List Char
  | [] => []
  | c :: cs => if c = ':' then [] else c :: takeScheme cs

/-- The scheme of an endpoint URI string. -/
def schemeOf (ep : String) : String := String.mk (takeScheme ep.data)

/-- The supported endpoint schemes: file, http, https and the object
store (s3 bucket/key form). -/
def supportedSchemes : List String := ["file", "http", "https", "s3"]

/-- The kind of raw byte source selected for an endpoint. -/
inductive SrcKind
  | srcFile
  | srcHTTP
  | srcS3
  deriving DecidableEq

/-- Error kinds of the resolver. -/
inductive DSError
  | unsupportedScheme (s : String)
  | endpointUnreachable (s : String)
  deriving DecidableEq

/-- Modelled from the spec: dataStreamSelector (not in src; only
Test_dataStream_dataStreamSelector is). It dispatches on the parsed
scheme of the endpoint and rejects any scheme outside the supported
set. -/
def dataStreamSelector (ep : String) : Except DSError SrcKind :=
  if schemeOf ep = "file" then Except.ok SrcKind.srcFile
  else if schemeOf ep = "http" then Except.ok SrcKind.srcHTTP
  else if schemeOf ep = "https" then Except.ok SrcKind.srcHTTP
  else if schemeOf ep = "s3" then Except.ok SrcKind.srcS3
  else Except.error (DSError.unsupportedScheme (schemeOf ep))

/-- C7: an endpoint string whose scheme is not in the supported set
fails with UnsupportedScheme instead of selecting any byte source. -/
theorem dataStreamSelector_unsupported_scheme (ep : String)
    (h : schemeOf ep ∉ supportedSchemes) :
    dataStreamSelector ep = Except.error (DSError.unsupportedScheme (schemeOf ep)) := by
  simp only [supportedSchemes, List.mem_cons, List.not_mem_nil, or_false, not_or] at h
  obtain ⟨h1, h2, h3, h4⟩ := h
  simp [dataStreamSelector, h1, h2, h3, h4]

/-- C7 witness: the fake scheme used in the selector test. -/
theorem dataStreamSelector_unsupported_scheme_witness :
    schemeOf "fake://somefakefile" ∉ supportedSchemes ∧
    dataStreamSelector "fake://somefakefile" =
      Except.error (DSError.unsupportedScheme (schemeOf "fake://somefakefile")) :=
  ⟨by decide, dataStreamSelector_unsupported_scheme "fake://somefakefile" (by decide)⟩

/-! ## Format Sniffer and Reader Chain Builder -/

/-- Bool test that the first list is a leading pattern of the second. -/
def isLeadOf : List Nat → List Nat → Bool
  | [], _ => true
  | _ :: _, [] => false
  | a :: as, b :: bs => a == b && isLeadOf as bs

/-- gzip magic bytes. -/
def gzipMagic : List Nat := [31, 139]

/-- xz magic bytes. -/
def xzMagic : List Nat := [253, 55, 122, 88, 90, 0]

/-- qcow2 magic bytes (the disk-container format magic word QFI 0xfb). -/
def qcow2Magic : List Nat := [81, 70, 73, 251]

/-- The ustar magic of a tar header, found at offset 257. -/
def ustarMagic : List Nat := [117, 115, 116, 97, 114]

/-- Offset of the ustar magic inside a tar header. -/
def tarMagicOffset : Nat := 257

/-- A run of zero bytes, used to build tar headers. -/
def zeros : Nat → List Nat
  | 0 => []
  | n + 1 => 0 :: zeros n

/-- The compression and archive layers the sniffer can peel. -/
inductive Lay
  | lgz
  | lxz
  | ltar
  deriving DecidableEq

/-- Result of matching the peeked header bytes against the known magic
signatures, in the fixed priority order gzip, xz, tar, qcow2; anything
else is opaque raw content. -/
inductive SniffResult
  | layer (l : Lay)
  | qcow2
  | raw
  deriving DecidableEq

/-- Modelled from the spec: the Format Sniffer match. The sniffer is not
in src (only its tests are); per the spec it matches the buffer prefix
against gzip, then xz, then the tar magic at its fixed offset, then the
disk-container magic, earlier entries winning. -/
def sniff (s : List Nat) : SniffResult :=
  if isLeadOf gzipMagic s then SniffResult.layer Lay.lgz
  else if isLeadOf xzMagic s then SniffResult.layer Lay.lxz
  else if isLeadOf ustarMagic (s.drop tarMagicOffset) then SniffResult.layer Lay.ltar
  else if isLeadOf qcow2Magic s then SniffResult.qcow2
  else SniffResult.raw

/-- True when the sniffed content is terminal: raw content or the
disk-container format, neither of which is peeled further. -/
def terminalSniff (s : List Nat) : Bool :=
  match sniff s with
  | SniffResult.layer _ => false
  | _ => true

/-- Modelled from the spec: each recognized layer wraps its payload
behind the header its decoder strips. The external codecs themselves
are out of scope, so a layer contributes exactly the header that its
magic signature identifies: gzip and xz prepend their magic, tar wraps
the payload behind one 512-byte ustar header. -/
def encodeLayer : Lay → List Nat → List Nat
  | Lay.lgz, p => gzipMagic ++ p
  | Lay.lxz, p => xzMagic ++ p
  | Lay.ltar, p => zeros tarMagicOffset ++ (ustarMagic ++ (zeros 250 ++ p))

/-- Modelled from the spec: the decoder of one layer consumes that
layer's header and yields the wrapped payload. -/
def decodeLayer : Lay → List Nat → List Nat
  | Lay.lgz, s => s.drop gzipMagic.length
  | Lay.lxz, s => s.drop xzMagic.length
  | Lay.ltar, s => s.drop 512

/-- A payload wrapped in a stack of recognized layers, outermost first. -/
def encodeLayers : List Lay → List Nat → List Nat
  | [], p => p
  | l :: ls, p => encodeLayer l (encodeLayers ls p)

/-- The kinds of chain links recorded by constructReaders, matching the
reader tags listed in Test_dataStream_constructReaders: the base source,
the replay multi-reader, and one decoder link per peeled layer. -/
inductive RdrKind
  | rdrBase
  | rdrMulti
  | rdrGz
  | rdrXz
  | rdrTar
  deriving DecidableEq

/-- The decoder link recorded for a peeled layer. -/
def rdrOf : Lay → RdrKind
  | Lay.lgz => RdrKind.rdrGz
  | Lay.lxz => RdrKind.rdrXz
  | Lay.ltar => RdrKind.rdrTar

/-- The constructed DataStream chain: its ordered links, the decoded
content the chain will produce when read to exhaustion, and whether the
terminal content is in the disk-container format (the qemu flag). -/
structure DataStreamModel where
  readers : List RdrKind
  content : List Nat
  qemu : Bool
  deriving DecidableEq

/-- Reading a replay wrapper to exhaustion: first the bytes captured by
the sniffer, then the remainder of the live source. -/
def readToEnd (buf rest : List Nat) : List Nat := buf ++ rest

/-- Modelled from the spec: the maximum nesting depth of the iterative
sniffer; exceeding it is a FormatError (none here). -/
def maxNesting : Nat := 8

/-- Modelled from the spec: the iterative sniff loop of the Reader Chain
Builder. At each level the sniffer peeks some bytes, a fresh replay
multi-reader is appended so the peeked bytes are preserved, and a
recognized layer appends its decoder link and re-sniffs the decoded
output; terminal content stops the loop. The peeks argument gives the
number of bytes the sniffer captured at each level. -/
def sniffLoop : Nat → List Nat → List Nat → List RdrKind → Option DataStreamModel
  | 0, _, _, _ => none
  | fuel + 1, peeks, s, acc =>
    let s2 := readToEnd (s.take (peeks.headD 0)) (s.drop (peeks.headD 0))
    let acc2 := acc ++ [RdrKind.rdrMulti]
    match sniff s2 with
    | SniffResult.layer l => sniffLoop fuel peeks.tail (decodeLayer l s2) (acc2 ++ [rdrOf l])
    | SniffResult.qcow2 => some ⟨acc2, s2, true⟩
    | SniffResult.raw => some ⟨acc2, s2, false⟩

/-- Modelled from the spec: constructReaders (not in src; only its tests
are). The chain starts with the base source link and then runs the
iterative sniff loop under the nesting bound. -/
def constructReaders (peeks : List Nat) (src : List Nat) : Option DataStreamModel :=
  sniffLoop maxNesting peeks src [RdrKind.rdrBase]

set_option maxRecDepth 4000

/-- Reading a replay wrapper to exhaustion restores the source bytes:
the captured bytes followed by the live remainder are the stream. -/
theorem readToEnd_take_drop (n : Nat) (s : List Nat) :
    readToEnd (s.take n) (s.drop n) = s := by
  simp [readToEnd]

/-- A list is a leading pattern of itself followed by anything. -/
theorem isLeadOf_self_append (xs ys : List Nat) : isLeadOf xs (xs ++ ys) = true := by
  induction xs with
  | nil => rfl
  | cons a as ih => simp [isLeadOf, ih]

/-- Each encoded layer is sniffed as exactly that layer. -/
theorem sniff_encodeLayer (l : Lay) (p : List Nat) :
    sniff (encodeLayer l p) = SniffResult.layer l := by
  cases l with
  | lgz => rfl
  | lxz => rfl
  | ltar => rfl

/-- Each decoder peels exactly the layer its encoder added. -/
theorem decodeLayer_encodeLayer (l : Lay) (p : List Nat) :
    decodeLayer l (encodeLayer l p) = p := by
  cases l with
  | lgz => rfl
  | lxz => rfl
  | ltar => rfl

/-- The sniff loop peels an encoded layer stack down to its terminal
payload, whatever the sniffer peeked at each level. -/
theorem sniffLoop_encodeLayers (ls : List Lay) (p : List Nat)
    (hterm : terminalSniff p = true) :
    ∀ fuel peeks acc, ls.length < fuel →
      ∃ ds, sniffLoop fuel peeks (encodeLayers ls p) acc = some ds ∧ ds.content = p := by
  induction ls with
  | nil =>
    intro fuel peeks acc hf
    cases fuel with
    | zero => omega
    | succ f =>
      unfold terminalSniff at hterm
      simp only [encodeLayers, sniffLoop, readToEnd_take_drop]
      cases hs : sniff p with
      | layer l => rw [hs] at hterm; simp at hterm
      | qcow2 => exact ⟨_, rfl, rfl⟩
      | raw => exact ⟨_, rfl, rfl⟩
  | cons l ls ih =>
    intro fuel peeks acc hf
    cases fuel with
    | zero => omega
    | succ f =>
      simp only [encodeLayers, sniffLoop, readToEnd_take_drop, sniff_encodeLayer,
        decodeLayer_encodeLayer]
      exact ih f peeks.tail _ (by simp at hf; omega)

/-- C1: a payload wrapped in recognized layers is decoded by the
constructed chain back to the original bytes, whatever the sniffer
peeked at each level; in particular a raw source is passed through
unchanged and the byte count read over the whole stream equals the
source size exactly. -/
theorem dataStream_read_roundTrip (p : List Nat) (ls : List Lay) (peeks : List Nat)
    (hterm : terminalSniff p = true) (hdepth : ls.length < maxNesting) :
    (∃ ds, constructReaders peeks (encodeLayers ls p) = some ds ∧ ds.content = p) ∧
    (∃ ds0, constructReaders peeks p = some ds0 ∧ ds0.content = p ∧
      ds0.content.length = p.length) := by
  constructor
  · exact sniffLoop_encodeLayers ls p hterm maxNesting peeks _ hdepth
  · obtain ⟨ds0, h1, h2⟩ :=
      sniffLoop_encodeLayers [] p hterm maxNesting peeks [RdrKind.rdrBase]
        (by simp [maxNesting])
    exact ⟨ds0, h1, h2, by rw [h2]⟩

/-- C1 witness: a disk-container payload wrapped as
compressed-then-archived (tar of gzip), with assorted peek sizes. -/
theorem dataStream_read_roundTrip_witness :
    terminalSniff qcow2Magic = true ∧
    ([Lay.ltar, Lay.lgz] : List Lay).length < maxNesting ∧
    ((∃ ds, constructReaders [5, 0, 3] (encodeLayers [Lay.ltar, Lay.lgz] qcow2Magic) =
        some ds ∧ ds.content = qcow2Magic) ∧
     (∃ ds0, constructReaders [5, 0, 3] qcow2Magic = some ds0 ∧
        ds0.content = qcow2Magic ∧ ds0.content.length = qcow2Magic.length)) :=
  ⟨by decide, by decide,
   dataStream_read_roundTrip qcow2Magic [Lay.ltar, Lay.lgz] [5, 0, 3]
     (by decide) (by decide)⟩

/-- C5: for a file endpoint whose content is a raw disk-container image
(no compression or archive layer), the selector picks the local file
source and the constructed chain has exactly the two links base source
and replay buffer. -/
theorem constructReaders_qcow2_two_links (ep : String) (src : List Nat) (peeks : List Nat)
    (hfile : schemeOf ep = "file") (hq : sniff src = SniffResult.qcow2) :
    dataStreamSelector ep = Except.ok SrcKind.srcFile ∧
    constructReaders peeks src =
      some ⟨[RdrKind.rdrBase, RdrKind.rdrMulti], src, true⟩ := by
  constructor
  · simp [dataStreamSelector, hfile]
  · show sniffLoop maxNesting peeks src [RdrKind.rdrBase] = _
    rw [show maxNesting = 7 + 1 from rfl]
    simp only [sniffLoop, readToEnd_take_drop, hq]
    rfl

/-- C5 witness: the cirros style local image endpoint over a stream that
starts with the disk-container magic. -/
theorem constructReaders_qcow2_two_links_witness :
    schemeOf "file:///images/cirros.img" = "file" ∧
    sniff qcow2Magic = SniffResult.qcow2 ∧
    (dataStreamSelector "file:///images/cirros.img" = Except.ok SrcKind.srcFile ∧
     constructReaders [7] qcow2Magic =
       some ⟨[RdrKind.rdrBase, RdrKind.rdrMulti], qcow2Magic, true⟩) :=
  ⟨by decide, by decide,
   constructReaders_qcow2_two_links "file:///images/cirros.img" qcow2Magic [7]
     (by decide) (by decide)⟩

/-! ## Copier and Conversion Adapter -/

/-- The Conversion Adapter capability set, as built by the test double
fakeQEMUOperations in src: e1 scripts the result of ConvertQcow2ToRaw,
e2 the result of ConvertQcow2ToRawStream, e3 the result of Validate
(none means the call succeeds). -/
structure QEMUOps where
  e1 : Option String
  e2 : Option String
  e3 : Option String
  deriving DecidableEq

/-- NewFakeQEMUOperations from src: an adapter returning the scripted
results. -/
def NewFakeQEMUOperations (a b c : Option String) : QEMUOps := ⟨a, b, c⟩

/-- NewQEMUAllErrors from src: every capability fails. -/
def qemuAllErrors : QEMUOps :=
  let err := some "qemu should not be called from this test override with replaceQEMUOperations"
  NewFakeQEMUOperations err err err

/-- The typed failure kinds of the Copier. -/
inductive CopyErr
  | ioErr
  | convertErr (m : String)
  | validateErr (m : String)
  deriving DecidableEq

/-- How the Copier drains the finished chain: the direct path, the
convert path through a private temp file, or the streaming-convert
variant pulling from the source URL. -/
inductive CopyMode
  | direct
  | viaFile
  | viaStream
  deriving DecidableEq

/-- How many times the Copier invoked each adapter capability:
Convert, ConvertStream, and Validate. -/
structure CopyCalls where
  nConvert : Nat
  nStream : Nat
  nValidate : Nat
  deriving DecidableEq

/-- Modelled from the spec: the Copier body (the importer copy and
CopyImage functions are not in src; only their tests are). A failed
read or write is an IOError; on the convert paths the adapter Convert
or ConvertStream capability runs once and a failure is a ConvertError;
after a successful conversion Validate runs once and a failure is a
ValidateError; nothing is retried. -/
def copyOp (ops : QEMUOps) (readOk : Bool) (mode : CopyMode) : CopyCalls × Option CopyErr :=
  if !readOk then (⟨0, 0, 0⟩, some CopyErr.ioErr)
  else
    match mode with
    | CopyMode.direct => (⟨0, 0, 0⟩, none)
    | CopyMode.viaFile =>
      match ops.e1 with
      | some m => (⟨1, 0, 0⟩, some (CopyErr.convertErr m))
      | none =>
        match ops.e3 with
        | some m => (⟨1, 0, 1⟩, some (CopyErr.validateErr m))
        | none => (⟨1, 0, 1⟩, none)
    | CopyMode.viaStream =>
      match ops.e2 with
      | some m => (⟨0, 1, 0⟩, some (CopyErr.convertErr m))
      | none =>
        match ops.e3 with
        | some m => (⟨0, 1, 1⟩, some (CopyErr.validateErr m))
        | none => (⟨0, 1, 1⟩, none)

/-- The process-wide mutable state of the importer package: the
package-level qemuOperations variable that replaceQEMUOperations in src
saves, swaps and restores. -/
structure ProcState where
  qemuOperations : QEMUOps
  deriving DecidableEq

/-- CopyImage as called in TestCopyImage: its parameters are only the
destination, the endpoint and the two credential strings - no adapter
is among them - so the adapter is resolved from the process-wide state.
The read outcome and chosen path stand in for the endpoint contents. -/
def CopyImage (dest ep accessKey secKey : String) (readOk : Bool) (mode : CopyMode)
    (st : ProcState) : Option CopyErr × ProcState :=
  ((copyOp st.qemuOperations readOk mode).2, st)

/-- replaceQEMUOperations from src: when the replacement is non-nil it
saves the package variable, installs the replacement, runs the callback
and restores the saved adapter afterwards; otherwise it just runs the
callback. -/
def replaceQEMUOperations {α : Type} (replacement : Option QEMUOps)
    (f : ProcState → α × ProcState) (st : ProcState) : α × ProcState :=
  match replacement with
  | some r =>
    let orig := st.qemuOperations
    let res := f { qemuOperations := r }
    (res.1, { qemuOperations := orig })
  | none => f st

/-- C2 counterexample: the same CopyImage call, with identical explicit
arguments, gives different results under two different process-wide
adapter states, so the pipeline does resolve the adapter by reading
process-wide mutable state rather than receiving it at construction
time. -/
theorem copyImage_reads_global_cex :
    (CopyImage "/tmp/dst" "http://localhost:9999/cirros-qcow2.img" "" "" true
        CopyMode.viaStream { qemuOperations := qemuAllErrors }).1 ≠
    (CopyImage "/tmp/dst" "http://localhost:9999/cirros-qcow2.img" "" "" true
        CopyMode.viaStream { qemuOperations := NewFakeQEMUOperations none none none }).1 := by
  decide

/-- C2 amended: the Conversion Adapter is resolved from the package
level mutable variable qemuOperations - CopyImage takes no adapter
argument and behaves according to the process-wide adapter - and tests
substitute it through replaceQEMUOperations, which runs the callback
against the replacement and restores the saved adapter afterwards. -/
theorem copyImage_adapter_global (dest ep accessKey secKey : String) (readOk : Bool)
    (mode : CopyMode) (r : QEMUOps) (st : ProcState) :
    (CopyImage dest ep accessKey secKey readOk mode st).1 =
      (copyOp st.qemuOperations readOk mode).2 ∧
    (replaceQEMUOperations (some r) (CopyImage dest ep accessKey secKey readOk mode) st).1 =
      (copyOp r readOk mode).2 ∧
    ((replaceQEMUOperations (some r) (CopyImage dest ep accessKey secKey readOk mode) st).2).qemuOperations =
      st.qemuOperations :=
  ⟨rfl, rfl, rfl⟩

/-- C6: on the convert paths the Copier fails with ConvertError exactly
when the adapter Convert or ConvertStream capability fails, fails with
ValidateError when the post-conversion Validate check fails, succeeds
when both succeed, and invokes each capability at most once. -/
theorem copy_typed_errors (ops : QEMUOps) (readOk : Bool) (mode : CopyMode) (msg : String) :
    (ops.e1 = some msg → (copyOp ops true CopyMode.viaFile).2 = some (CopyErr.convertErr msg)) ∧
    (ops.e2 = some msg → (copyOp ops true CopyMode.viaStream).2 = some (CopyErr.convertErr msg)) ∧
    (ops.e1 = none → ops.e3 = some msg →
      (copyOp ops true CopyMode.viaFile).2 = some (CopyErr.validateErr msg)) ∧
    (ops.e2 = none → ops.e3 = some msg →
      (copyOp ops true CopyMode.viaStream).2 = some (CopyErr.validateErr msg)) ∧
    (ops.e1 = none → ops.e3 = none → (copyOp ops true CopyMode.viaFile).2 = none) ∧
    (ops.e2 = none → ops.e3 = none → (copyOp ops true CopyMode.viaStream).2 = none) ∧
    ((copyOp ops readOk mode).1.nConvert ≤ 1 ∧ (copyOp ops readOk mode).1.nStream ≤ 1 ∧
      (copyOp ops readOk mode).1.nValidate ≤ 1) := by
  refine ⟨?_, ?_, ?_, ?_, ?_, ?_, ?_⟩
  · intro h1; simp [copyOp, h1]
  · intro h2; simp [copyOp, h2]
  · intro h1 h3; simp [copyOp, h1, h3]
  · intro h2 h3; simp [copyOp, h2, h3]
  · intro h1 h3; simp [copyOp, h1, h3]
  · intro h2 h3; simp [copyOp, h2, h3]
  · cases readOk <;> cases mode <;>
      cases h1 : ops.e1 <;> cases h2 : ops.e2 <;> cases h3 : ops.e3 <;>
      simp [copyOp, h1, h2, h3]

/-- C6 witness: the scripted adapters of TestCopyImage - a failing
stream conversion, a failing validation, and an all-success run. -/
theorem copy_typed_errors_witness :
    (copyOp (NewFakeQEMUOperations (some "exit 1") (some "exit 1") none) true
      CopyMode.viaFile).2 = some (CopyErr.convertErr "exit 1") ∧
    (copyOp (NewFakeQEMUOperations none none (some "invalid image")) true
      CopyMode.viaStream).2 = some (CopyErr.validateErr "invalid image") ∧
    (copyOp (NewFakeQEMUOperations none none none) true CopyMode.viaStream).2 = none :=
  ⟨(copy_typed_errors (NewFakeQEMUOperations (some "exit 1") (some "exit 1") none)
      true CopyMode.viaFile "exit 1").1 rfl,
   ((copy_typed_errors (NewFakeQEMUOperations none none (some "invalid image"))
      true CopyMode.viaStream "invalid image").2.2.2.1) rfl rfl,
   ((copy_typed_errors (NewFakeQEMUOperations none none none)
      true CopyMode.viaStream "").2.2.2.2.2.1) rfl rfl⟩

/-! ## Controller helpers: getSecretName -/

/-- The PVC annotation naming the endpoint credentials secret. -/
def AnnSecret : String := "cdi.kubevirt.io/storage.import.secretName"

/-- The PVC annotation holding the clone request source. -/
def AnnCloneRequest : String := "k8s.io/CloneRequest"

/-- Lookup in a Go string map modelled as an association list. -/
def lookupKV : List (String × String) → String → Option String
  | [], _ => none
  | (k, v) :: rest, key => if k = key then some v else lookupKV rest key

/-- A PersistentVolumeClaim, reduced to the fields util.go touches. -/
structure PvcM where
  ns : String
  name : String
  annotations : List (String × String)
  labels : List (String × String)
  deriving DecidableEq

/-- Outcomes of a Kubernetes API get. -/
inductive ApiErr
  | notFound
  | other (m : String)
  deriving DecidableEq

/-- The secret annotation value of a PVC. -/
def lookupAnn (pvc : PvcM) (key : String) : Option String :=
  lookupKV pvc.annotations key

/-- getSecretName from src lines 88-112. The secretGet argument stands
for client.CoreV1().Secrets(ns).Get; the result pairs the returned
secret name with the returned error. -/
def getSecretName (secretGet : String → String → Except ApiErr Unit) (pvc : PvcM) :
    String × Option String :=
  match lookupAnn pvc AnnSecret with
  | none => ("", none)
  | some nm =>
    if nm = "" then ("", none)
    else
      match secretGet pvc.ns nm with
      | Except.error ApiErr.notFound => (nm, none)
      | Except.error (ApiErr.other m) => ("", some ("error getting secret " ++ nm ++ ": " ++ m))
      | Except.ok _ => (nm, none)

/-- C8: getSecretName treats a missing or empty secret annotation as an
anonymous import (empty name, nil error), still succeeds with the
annotated name when the referenced secret does not exist yet, and
returns a non-nil error only when the secret lookup fails for a reason
other than not-found. -/
theorem getSecretName_spec (secretGet : String → String → Except ApiErr Unit) (pvc : PvcM) :
    ((lookupAnn pvc AnnSecret = none ∨ lookupAnn pvc AnnSecret = some "") →
      getSecretName secretGet pvc = ("", none)) ∧
    (∀ nm, lookupAnn pvc AnnSecret = some nm → nm ≠ "" →
      secretGet pvc.ns nm = Except.error ApiErr.notFound →
      getSecretName secretGet pvc = (nm, none)) ∧
    (∀ e, (getSecretName secretGet pvc).2 = some e →
      ∃ nm m, lookupAnn pvc AnnSecret = some nm ∧ nm ≠ "" ∧
        secretGet pvc.ns nm = Except.error (ApiErr.other m)) := by
  refine ⟨?_, ?_, ?_⟩
  · rintro (h | h) <;> simp [getSecretName, h]
  · intro nm hnm hne hget
    simp [getSecretName, hnm, hne, hget]
  · intro e he
    unfold getSecretName at he
    cases hnm : lookupAnn pvc AnnSecret with
    | none => rw [hnm] at he; simp at he
    | some nm =>
      rw [hnm] at he
      by_cases hne : nm = ""
      · simp [hne] at he
      · simp only [hne, if_false] at he
        cases hget : secretGet pvc.ns nm with
        | ok u => rw [hget] at he; simp at he
        | error err =>
          cases err with
          | notFound => rw [hget] at he; simp at he
          | other m => exact ⟨nm, m, rfl, hne, hget⟩

/-- C8 witness: a PVC without the annotation, one whose secret is not
created yet, and one whose secret lookup fails hard. -/
theorem getSecretName_spec_witness :
    getSecretName (fun _ _ => Except.error ApiErr.notFound)
      ⟨"ns1", "pvc1", [], []⟩ = ("", none) ∧
    getSecretName (fun _ _ => Except.error ApiErr.notFound)
      ⟨"ns1", "pvc1", [(AnnSecret, "mysecret")], []⟩ = ("mysecret", none) ∧
    (∃ nm m, lookupAnn ⟨"ns1", "pvc1", [(AnnSecret, "mysecret")], []⟩ AnnSecret = some nm ∧
      nm ≠ "" ∧ (fun (_ _ : String) => Except.error (ApiErr.other "boom")) "ns1" nm =
        (Except.error (ApiErr.other m) : Except ApiErr Unit)) :=
  ⟨(getSecretName_spec (fun _ _ => Except.error ApiErr.notFound)
      ⟨"ns1", "pvc1", [], []⟩).1 (Or.inl (by decide)),
   (getSecretName_spec (fun _ _ => Except.error ApiErr.notFound)
      ⟨"ns1", "pvc1", [(AnnSecret, "mysecret")], []⟩).2.1 "mysecret" (by decide)
      (by decide) rfl,
   (getSecretName_spec (fun _ _ => Except.error (ApiErr.other "boom"))
      ⟨"ns1", "pvc1", [(AnnSecret, "mysecret")], []⟩).2.2
      "error getting secret mysecret: boom" (by decide)⟩

/-! ## Controller helpers: clone source annotation and pod -/

/-- strings.Split with a one-character separator, as used with the
slash delimiter of the clone request annotation: the pieces of the
string between occurrences of the delimiter (never nil, at least one
piece). -/
def splitOnCharAux (del : Char) : List Char → List Char → List String
  | [], acc => [String.mk acc.reverse]
  | c :: cs, acc =>
    if c = del then String.mk acc.reverse :: splitOnCharAux del cs []
    else splitOnCharAux del cs (c :: acc)

/-- Go strings.Split over a string, one-character delimiter. -/
def goSplit (s : String) (del : Char) : List String :=
  splitOnCharAux del s.data []

/-- ParseSourcePvcAnnotation from src lines 326-334 (the trailing word
of the Go name is shortened here): split the clone request value on the
delimiter; with fewer than two parts return two empty strings, else the
first part is the namespace and the second the name. -/
def parseSourcePvcAnno (sourcePvcAnno : String) (del : Char) : String × String :=
  let strArr := goSplit sourcePvcAnno del
  if strArr.length < 2 then ("", "")
  else (strArr.getD 0 "", strArr.getD 1 "")

/-- A created pod, reduced to its name. -/
structure PodM where
  name : String
  deriving DecidableEq

/-- CreateCloneSourcePod from src lines 337-349. The podCreate argument
stands for client.CoreV1().Pods(ns).Create; the result carries the
returned pod, the returned error, and how many create calls were
issued. -/
def CreateCloneSourcePod (podCreate : String → Except String PodM) (cr : String) :
    Option PodM × Option String × Nat :=
  let parsed := parseSourcePvcAnno cr '/'
  if parsed.1 = "" ∨ parsed.2 = "" then
    (none, some "Bad CloneRequest Annotation", 0)
  else
    match podCreate parsed.1 with
    | Except.ok pod => (some pod, none, 1)
    | Except.error e => (none, some ("source pod API create errored: " ++ e), 1)

/-- C10: a clone request annotation that splits into fewer than two
parts is parsed to two empty strings, and CreateCloneSourcePod then
returns no pod and an error without issuing any create call. -/
theorem parseSourcePvcAnno_short_split (cr : String) (del : Char)
    (podCreate : String → Except String PodM)
    (h : (goSplit cr del).length < 2) :
    parseSourcePvcAnno cr del = ("", "") ∧
    (del = '/' → CreateCloneSourcePod podCreate cr =
      (none, some "Bad CloneRequest Annotation", 0)) := by
  have hp : parseSourcePvcAnno cr del = ("", "") := by
    unfold parseSourcePvcAnno
    simp [h]
  refine ⟨hp, ?_⟩
  intro hdel
  subst hdel
  unfold CreateCloneSourcePod
  rw [hp]
  simp

/-- C10 witness: a clone request value with no slash at all. -/
theorem parseSourcePvcAnno_short_split_witness :
    (goSplit "badCloneRequest" '/').length < 2 ∧
    parseSourcePvcAnno "badCloneRequest" '/' = ("", "") ∧
    CreateCloneSourcePod (fun ns => Except.ok ⟨ns ++ "-source-pod"⟩) "badCloneRequest" =
      (none, some "Bad CloneRequest Annotation", 0) :=
  ⟨by decide,
   (parseSourcePvcAnno_short_split "badCloneRequest" '/'
      (fun ns => Except.ok ⟨ns ++ "-source-pod"⟩) (by decide)).1,
   (parseSourcePvcAnno_short_split "badCloneRequest" '/'
      (fun ns => Except.ok ⟨ns ++ "-source-pod"⟩) (by decide)).2 rfl⟩

/-! ## Controller helpers: updatePVC -/

/-- A store of heap-allocated PVC objects; a Go pointer is an index
into the store. -/
structure Store where
  objs : List PvcM
  deriving DecidableEq

/-- Default object for out-of-range reads. -/
def defaultPvc : PvcM := ⟨"", "", [], []⟩

/-- Dereference a PVC pointer. -/
def readS (st : Store) (i : Nat) : PvcM := st.objs.getD i defaultPvc

/-- Write through a PVC pointer. -/
def writeS (st : Store) (i : Nat) (p : PvcM) : Store := ⟨st.objs.set i p⟩

/-- Allocate a fresh object (a DeepCopy, or an object returned by the
API) and return its pointer. -/
def allocS (st : Store) (p : PvcM) : Store × Nat := (⟨st.objs ++ [p]⟩, st.objs.length)

/-- Set one key of a Go string map modelled as an association list. -/
def setKV : List (String × String) → String → String → List (String × String)
  | [], k, v => [(k, v)]
  | (k0, v0) :: rest, k, v =>
    if k0 = k then (k, v) :: rest else (k0, v0) :: setKV rest k v

/-- addToMap from src lines 302-310: m1 with the entries of m2 added,
entries of m2 overriding matching keys of m1. -/
def addToMap (m1 m2 : List (String × String)) : List (String × String) :=
  m2.foldl (fun acc kv => setKV acc kv.1 kv.2) m1

/-- The applyUpdt closure inside updatePVC: add the given optional
annotations and labels to the claim. -/
def applyUpdt (claim : PvcM) (anno label : Option (List (String × String))) : PvcM :=
  let c1 := match anno with
    | some a => { claim with annotations := addToMap claim.annotations a }
    | none => claim
  match label with
  | some l => { c1 with labels := addToMap c1.labels l }
  | none => c1

/-- One response of the API Update call. -/
inductive UpdateResp
  | ok (p : PvcM)
  | conflict
  | otherErr (m : String)

/-- Scripted API: the result of the n-th Update call and of the n-th
Get call. -/
structure ApiScript where
  updates : Nat → UpdateResp
  gets : Nat → Except String PvcM

/-- The retry loop of updatePVC (src lines 134-152), the
wait.PollImmediate budget as fuel. Each round applies the updates to
the object pvcCopy points to and calls Update. On success the object
the API returned is the result; on a conflict the claim is re-read
with Get into a fresh object, or deep-copied from the original again
when the Get fails; any other error retries with the same copy. When
the budget is exhausted the code returns the original pvc pointer
together with the wrap of the poll error. -/
def updatePVCLoop (script : ApiScript) (anno label : Option (List (String × String)))
    (pvcIdx : Nat) :
    Nat → Nat → Nat → Store → Nat → Store × Nat × Option String
  | 0, _, _, st, _ =>
    (st, pvcIdx, some "error updating pvc: timed out waiting for the condition")
  | fuel + 1, uIdx, gIdx, st, copyIdx =>
    let st1 := writeS st copyIdx (applyUpdt (readS st copyIdx) anno label)
    match script.updates uIdx with
    | UpdateResp.ok p =>
      let alloced := allocS st1 p
      (alloced.1, alloced.2, none)
    | UpdateResp.conflict =>
      match script.gets gIdx with
      | Except.ok got =>
        let alloced := allocS st1 got
        updatePVCLoop script anno label pvcIdx fuel (uIdx + 1) (gIdx + 1) alloced.1 alloced.2
      | Except.error _ =>
        let alloced := allocS st1 (readS st1 pvcIdx)
        updatePVCLoop script anno label pvcIdx fuel (uIdx + 1) (gIdx + 1) alloced.1 alloced.2
    | UpdateResp.otherErr _ =>
      updatePVCLoop script anno label pvcIdx fuel (uIdx + 1) gIdx st1 copyIdx

/-- updatePVC from src lines 117-159: deep-copy the passed-in claim
(the code never writes through the pointer the caller passed in) and
run the retry loop, here with the ten one-second polls of its
ten-second budget. -/
def updatePVC (script : ApiScript) (st : Store) (pvcIdx : Nat)
    (anno label : Option (List (String × String))) : Store × Nat × Option String :=
  let alloced := allocS st (readS st pvcIdx)
  updatePVCLoop script anno label pvcIdx 10 0 0 alloced.1 alloced.2

/-- Writing through one pointer does not change what a different
pointer dereferences to. -/
theorem readS_writeS_ne (st : Store) (i j : Nat) (p : PvcM) (h : i ≠ j) :
    readS (writeS st i p) j = readS st j := by
  simp [readS, writeS, List.getD_eq_getElem?_getD, List.getElem?_set_ne h]

/-- Allocation does not change what an existing pointer dereferences
to. -/
theorem readS_allocS (st : Store) (p : PvcM) (j : Nat) (h : j < st.objs.length) :
    readS (allocS st p).1 j = readS st j := by
  simp [readS, allocS, List.getD_eq_getElem?_getD, List.getElem?_append_left h]

/-- Writing preserves the store size. -/
theorem length_writeS (st : Store) (i : Nat) (p : PvcM) :
    (writeS st i p).objs.length = st.objs.length := by
  simp [writeS]

/-- Allocation grows the store by one. -/
theorem length_allocS (st : Store) (p : PvcM) :
    (allocS st p).1.objs.length = st.objs.length + 1 := by
  simp [allocS]

/-- The update loop never writes through the original claim pointer,
and an erroring run hands back exactly that pointer. -/
theorem updatePVCLoop_frame (script : ApiScript)
    (anno label : Option (List (String × String))) (pvcIdx : Nat) :
    ∀ fuel uIdx gIdx st copyIdx, pvcIdx < st.objs.length → pvcIdx ≠ copyIdx →
      readS (updatePVCLoop script anno label pvcIdx fuel uIdx gIdx st copyIdx).1 pvcIdx =
        readS st pvcIdx ∧
      (∀ e, (updatePVCLoop script anno label pvcIdx fuel uIdx gIdx st copyIdx).2.2 = some e →
        (updatePVCLoop script anno label pvcIdx fuel uIdx gIdx st copyIdx).2.1 = pvcIdx) := by
  intro fuel
  induction fuel with
  | zero =>
    intro uIdx gIdx st copyIdx hlt hne
    exact ⟨rfl, fun e _ => rfl⟩
  | succ f ih =>
    intro uIdx gIdx st copyIdx hlt hne
    have hne' : copyIdx ≠ pvcIdx := fun hh => hne hh.symm
    have hw : pvcIdx <
        (writeS st copyIdx (applyUpdt (readS st copyIdx) anno label)).objs.length := by
      rw [length_writeS]; exact hlt
    have hwr : readS (writeS st copyIdx (applyUpdt (readS st copyIdx) anno label)) pvcIdx =
        readS st pvcIdx := readS_writeS_ne st copyIdx pvcIdx _ hne'
    simp only [updatePVCLoop]
    split
    next p heq =>
      refine ⟨?_, ?_⟩
      · rw [readS_allocS _ _ _ hw, hwr]
      · intro e he
        simp at he
    next heq =>
      split
      next got heq2 =>
        have h1 : pvcIdx < ((allocS
            (writeS st copyIdx (applyUpdt (readS st copyIdx) anno label)) got).1).objs.length := by
          rw [length_allocS]; omega
        have h2 : pvcIdx ≠ (allocS
            (writeS st copyIdx (applyUpdt (readS st copyIdx) anno label)) got).2 := by
          have hh : (allocS
              (writeS st copyIdx (applyUpdt (readS st copyIdx) anno label)) got).2 =
              (writeS st copyIdx (applyUpdt (readS st copyIdx) anno label)).objs.length := rfl
          rw [hh]; omega
        obtain ⟨ihf, ihe⟩ := ih (uIdx + 1) (gIdx + 1) _ _ h1 h2
        refine ⟨?_, ihe⟩
        rw [ihf, readS_allocS _ _ _ hw, hwr]
      next msg heq2 =>
        have h1 : pvcIdx < ((allocS
            (writeS st copyIdx (applyUpdt (readS st copyIdx) anno label))
            (readS (writeS st copyIdx (applyUpdt (readS st copyIdx) anno label)) pvcIdx)).1).objs.length := by
          rw [length_allocS]; omega
        have h2 : pvcIdx ≠ (allocS
            (writeS st copyIdx (applyUpdt (readS st copyIdx) anno label))
            (readS (writeS st copyIdx (applyUpdt (readS st copyIdx) anno label)) pvcIdx)).2 := by
          have hh : (allocS
              (writeS st copyIdx (applyUpdt (readS st copyIdx) anno label))
              (readS (writeS st copyIdx (applyUpdt (readS st copyIdx) anno label)) pvcIdx)).2 =
              (writeS st copyIdx (applyUpdt (readS st copyIdx) anno label)).objs.length := rfl
          rw [hh]; omega
        obtain ⟨ihf, ihe⟩ := ih (uIdx + 1) (gIdx + 1) _ _ h1 h2
        refine ⟨?_, ihe⟩
        rw [ihf, readS_allocS _ _ _ hw, hwr]
    next m heq =>
      obtain ⟨ihf, ihe⟩ := ih (uIdx + 1) gIdx _ _ hw hne
      refine ⟨?_, ihe⟩
      rw [ihf, hwr]

/-- C9: updatePVC never mutates the claim the caller passed in - all
annotation and label additions are applied to a deep copy - and on
failure it returns the original claim pointer together with the
error. -/
theorem updatePVC_no_mutation (script : ApiScript) (st : Store) (pvcIdx : Nat)
    (anno label : Option (List (String × String))) (h : pvcIdx < st.objs.length) :
    readS (updatePVC script st pvcIdx anno label).1 pvcIdx = readS st pvcIdx ∧
    (∀ e, (updatePVC script st pvcIdx anno label).2.2 = some e →
      (updatePVC script st pvcIdx anno label).2.1 = pvcIdx) := by
  have h1 : pvcIdx < ((allocS st (readS st pvcIdx)).1).objs.length := by
    rw [length_allocS]; omega
  have h2 : pvcIdx ≠ (allocS st (readS st pvcIdx)).2 := by
    have hh : (allocS st (readS st pvcIdx)).2 = st.objs.length := rfl
    rw [hh]; omega
  obtain ⟨hf, herr⟩ := updatePVCLoop_frame script anno label pvcIdx 10 0 0
    (allocS st (readS st pvcIdx)).1 (allocS st (readS st pvcIdx)).2 h1 h2
  unfold updatePVC
  refine ⟨?_, herr⟩
  rw [hf, readS_allocS _ _ _ h]

/-- A script whose Update calls always fail with a non-conflict error,
so updatePVC exhausts its poll budget and fails. -/
def scriptAllErr : ApiScript :=
  ⟨fun _ => UpdateResp.otherErr "server down", fun _ => Except.error "server down"⟩

/-- A one-object store holding the claim the caller passes in. -/
def storeW : Store := ⟨[⟨"ns1", "pvc1", [("k", "old")], []⟩]⟩

/-- C9 witness: a failing run over the one-object store leaves the
original claim untouched and hands its pointer back with the error. -/
theorem updatePVC_no_mutation_witness :
    0 < storeW.objs.length ∧
    readS (updatePVC scriptAllErr storeW 0 (some [("k", "new")]) none).1 0 =
      readS storeW 0 ∧
    (updatePVC scriptAllErr storeW 0 (some [("k", "new")]) none).2.1 = 0 :=
  ⟨by decide,
   (updatePVC_no_mutation scriptAllErr storeW 0 (some [("k", "new")]) none (by decide)).1,
   (updatePVC_no_mutation scriptAllErr storeW 0 (some [("k", "new")]) none (by decide)).2
     "error updating pvc: timed out waiting for the condition" rfl⟩
